import Mathlib

/-!
Shallow embedding of the Nexus wireframe-room geometry and interaction core.

Numeric values are modelled as rationals (ℚ): the source performs exact-looking
arithmetic on JS numbers and every claim is stated over that arithmetic.
JS `Math.round` rounds half toward positive infinity, which coincides with
Mathlib's `round` on ℚ.

Sources embedded here:
* `src/src/lib/room-geometry.ts` — `snapToEven`, `computeGeometry`,
  `pointInPolygon`, `wallAtPoint`, `defaultWindowPos`.
* `src/unnamed/part_000` (the AppWindow component) — the drag pointer-move
  position formula, the resize pointer-move size formula with the
  `MIN_W`/`MIN_H` floors, and the guard of `handleHeaderPointerDown`.
* `src/src/components/WireframeRoom.tsx` — `moveWindow` on the window store.
-/

namespace Nexus

/-- Desired tile edge length in pixels (`TARGET_TILE_PX = 52` in the source). -/
def TARGET_TILE_PX : ℚ := 52

/-- The back-wall rectangle in normalized 0–100 viewBox space. -/
structure Rect where
  x1 : ℚ
  y1 : ℚ
  x2 : ℚ
  y2 : ℚ
deriving DecidableEq

/-- Result of `computeGeometry` (the `VP` field is the constant (50,50) and is
omitted). -/
structure RoomGeometry where
  BW : Rect
  cols : ℤ
  rows : ℤ
  tilePx : ℚ
deriving DecidableEq

/-- Helper `snapToEven(n, min = 2)`: round to nearest, bump odd results up by one,
clamp below by `min`. JS `Math.round` is Mathlib `round` on ℚ. -/
def snapToEven (n : ℚ) (min : ℤ := 2) : ℤ :=
  let snapped := round n
  let even := if snapped % 2 = 0 then snapped else snapped + 1
  max min even

/-- Function `computeGeometry(vw, vh)` from `room-geometry.ts`. -/
def computeGeometry (vw vh : ℚ) : RoomGeometry :=
  let bwApproxPxW := (0.44 : ℚ) * vw
  let bwApproxPxH := (0.56 : ℚ) * vh
  let cols := snapToEven (bwApproxPxW / TARGET_TILE_PX)
  let tilePx := bwApproxPxW / (cols : ℚ)
  let rows := snapToEven (bwApproxPxH / tilePx)
  let bwPxW := (cols : ℚ) * tilePx
  let bwPxH := (rows : ℚ) * tilePx
  let bwVbW := bwPxW / vw * 100
  let bwVbH := bwPxH / vh * 100
  { BW := { x1 := 50 - bwVbW / 2, y1 := 50 - bwVbH / 2
            x2 := 50 + bwVbW / 2, y2 := 50 + bwVbH / 2 }
    cols := cols, rows := rows, tilePx := tilePx }

/-- One step of the even-odd crossing loop body of `pointInPolygon`:
vertex `p` plays the role of index `i`, vertex `q` of index `j`. -/
def pipStep (px py : ℚ) (p q : ℚ × ℚ) (inside : Bool) : Bool :=
  if (decide (p.2 > py) != decide (q.2 > py))
      && decide (px < (q.1 - p.1) * (py - p.2) / (q.2 - p.2) + p.1)
  then !inside else inside

/-- Function `pointInPolygon(px, py, poly)`: standard even-odd rule; the loop pairs
index `i` with `j = (i + n - 1) % n` exactly as the source's
`j = poly.length - 1; ...; j = i++` bookkeeping does. -/
def pointInPolygon (px py : ℚ) (poly : List (ℚ × ℚ)) : Bool :=
  let n := poly.length
  (List.range n).foldl
    (fun inside i =>
      pipStep px py (poly.getD i (0, 0)) (poly.getD ((i + n - 1) % n) (0, 0)) inside)
    false

/-- The five wall regions. -/
inductive WallId where
  | back
  | left
  | right
  | ceiling
  | floor
deriving DecidableEq

/-- Classifier `wallAtPoint(px, py, BW)`: back-wall rectangle test first (inclusive
bounds), then ceiling, floor, left trapezoids via `pointInPolygon`, with
`right` as the fallback. -/
def wallAtPoint (px py : ℚ) (BW : Rect) : WallId :=
  if BW.x1 ≤ px ∧ px ≤ BW.x2 ∧ BW.y1 ≤ py ∧ py ≤ BW.y2 then .back
  else if pointInPolygon px py [(0, 0), (100, 0), (BW.x2, BW.y1), (BW.x1, BW.y1)] then .ceiling
  else if pointInPolygon px py [(BW.x1, BW.y2), (BW.x2, BW.y2), (100, 100), (0, 100)] then .floor
  else if pointInPolygon px py [(0, 0), (BW.x1, BW.y1), (BW.x1, BW.y2), (0, 100)] then .left
  else .right

/-- Function `defaultWindowPos(wall, BW, vw, vh, stackIndex)` from `room-geometry.ts`. -/
def defaultWindowPos (wall : WallId) (BW : Rect) (vw vh : ℚ) (stackIndex : ℕ) : ℚ × ℚ :=
  let m : ℚ := 24
  let stagger : ℚ := (stackIndex : ℚ) * 28
  let bwPxX1 := BW.x1 / 100 * vw
  let bwPxY1 := BW.y1 / 100 * vh
  let bwPxX2 := BW.x2 / 100 * vw
  let bwPxY2 := BW.y2 / 100 * vh
  match wall with
  | .back => (bwPxX1 + m + stagger, bwPxY1 + m + stagger)
  | .ceiling => (bwPxX1 + m + stagger, m + stagger)
  | .floor => (bwPxX1 + m + stagger, bwPxY2 + m + stagger)
  | .left => (m + stagger, bwPxY1 + stagger)
  | .right => (bwPxX2 + m + stagger, bwPxY1 + stagger)

/-- Constant `MIN_W = 200` from the AppWindow component. -/
def MIN_W : ℚ := 200

/-- Constant `MIN_H = 130` from the AppWindow component. -/
def MIN_H : ℚ := 130

/-- A window's pixel size (`size.w`, `size.h`). -/
structure Size where
  w : ℚ
  h : ℚ
deriving DecidableEq

/-- Record `resizeStartRef.current` of the source, `{ x, y, w, h }`: pointer origin and original
size captured at resize pointer-down. -/
structure ResizeStart where
  x : ℚ
  y : ℚ
  w : ℚ
  h : ℚ
deriving DecidableEq

/-- The resize `onMove` handler: `dx`/`dy` are the pointer deltas from the
captured origin, and each axis is updated only when the grabbed affordance
identifier `eg` contains the corresponding edge letter, clamped by
`MIN_W`/`MIN_H`. JS `eg.includes("e")` on the one-character needles used here
is containment of that character, modelled as `eg.data.contains 'e'`. -/
def resizeMove (eg : String) (start : ResizeStart) (cx cy : ℚ) (prev : Size) : Size :=
  let dx := cx - start.x
  let dy := cy - start.y
  let w0 := prev.w
  let h0 := prev.h
  let w1 := if eg.data.contains 'e' then max MIN_W (start.w + dx) else w0
  let w2 := if eg.data.contains 'w' then max MIN_W (start.w - dx) else w1
  let h1 := if eg.data.contains 's' then max MIN_H (start.h + dy) else h0
  let h2 := if eg.data.contains 'n' then max MIN_H (start.h - dy) else h1
  { w := w2, h := h2 }

/-- Record `dragStartRef.current` of the source, `{ px, py, mx, my }`: pointer-down client
coordinates and the window position captured at drag start. -/
structure DragStart where
  px : ℚ
  py : ℚ
  mx : ℚ
  my : ℚ
deriving DecidableEq

/-- The drag `onMove` handler's position update:
`nx = mx + ev.clientX - px`, `ny = my + ev.clientY - py`. -/
def dragMovePos (s : DragStart) (cx cy : ℚ) : ℚ × ℚ :=
  (s.mx + cx - s.px, s.my + cy - s.py)

/-- The position after a whole sequence of pointer-move events, starting from
the captured position: each event overwrites the position with
`dragMovePos` of its own coordinates. -/
def dragPositions (s : DragStart) (events : List (ℚ × ℚ)) : ℚ × ℚ :=
  events.foldl (fun _ e => dragMovePos s e.1 e.2) (s.mx, s.my)

/-- A window record: the store's `WindowState` fields that matter here
(`id`, `title`, `wall`) together with the per-window position and size that
live beside the store and are untouched by `moveWindow`. -/
structure WindowRec where
  id : String
  title : String
  wall : WallId
  pos : ℚ × ℚ
  size : Size
deriving DecidableEq

/-- Store update `moveWindow(id, targetWall)` from `WireframeRoom.tsx`: map over the
window list replacing only the `wall` field of the matching window. -/
def moveWindow (wid : String) (targetWall : WallId) (ws : List WindowRec) : List WindowRec :=
  ws.map fun w => if w.id = wid then { w with wall := targetWall } else w

/-- The wall the drag `onUp` handler classifies the release point into:
client coordinates are converted to viewBox space (`clientX / vw * 100`)
and classified against the live geometry. -/
def dragReleaseWall (cx cy vw vh : ℚ) : WallId :=
  wallAtPoint (cx / vw * 100) (cy / vh * 100) (computeGeometry vw vh).BW

/-- The store update performed at drag release: `onMoveRequest(id, targetWall)`
feeding `moveWindow`. -/
def dragRelease (wid : String) (cx cy vw vh : ℚ) (ws : List WindowRec) : List WindowRec :=
  moveWindow wid (dragReleaseWall cx cy vw vh) ws

/-- Observable outcome of `handleHeaderPointerDown`: the two state flags it
may set and whether it invoked `onDragStart` and registered the global
move/up listeners. -/
structure HeaderDownResult where
  dragging : Bool
  active : Bool
  dragStartCalled : Bool
  listenersRegistered : Bool
deriving DecidableEq

/-- Guard of `handleHeaderPointerDown` and its effects: it returns early exactly
when `isMobile || e.button !== 0`; otherwise it sets the dragging/active
flags, calls `onDragStart` and registers the listeners — with no check of
the current `dragging` flag. -/
def handleHeaderPointerDown (isMobile : Bool) (button : ℤ) (dragging active : Bool) :
    HeaderDownResult :=
  if isMobile = true ∨ button ≠ 0 then
    { dragging := dragging, active := active
      dragStartCalled := false, listenersRegistered := false }
  else
    { dragging := true, active := true
      dragStartCalled := true, listenersRegistered := true }

end Nexus

namespace Nexus

/-- The result of `snapToEven` with the default minimum is always even. -/
theorem snapToEven_emod (n : ℚ) : snapToEven n % 2 = 0 := by
  simp only [snapToEven]
  split <;> omega

/-- The result of `snapToEven` with the default minimum is at least 2. -/
theorem two_le_snapToEven (n : ℚ) : 2 ≤ snapToEven n := by
  simp only [snapToEven]
  split <;> omega

/-- Unfolding lemma: the column count of `computeGeometry`. -/
theorem computeGeometry_cols (vw vh : ℚ) :
    (computeGeometry vw vh).cols = snapToEven ((0.44 : ℚ) * vw / TARGET_TILE_PX) := rfl

/-- Unfolding lemma: the tile size of `computeGeometry`. -/
theorem computeGeometry_tilePx (vw vh : ℚ) :
    (computeGeometry vw vh).tilePx =
      (0.44 : ℚ) * vw / ((snapToEven ((0.44 : ℚ) * vw / TARGET_TILE_PX) : ℤ) : ℚ) := rfl

/-- Unfolding lemma: the row count of `computeGeometry`. -/
theorem computeGeometry_rows (vw vh : ℚ) :
    (computeGeometry vw vh).rows =
      snapToEven ((0.56 : ℚ) * vh / (computeGeometry vw vh).tilePx) := rfl

/-- Unfolding lemma: the back wall's left edge. -/
theorem computeGeometry_BW_x1 (vw vh : ℚ) :
    (computeGeometry vw vh).BW.x1 =
      50 - ((computeGeometry vw vh).cols : ℚ) * (computeGeometry vw vh).tilePx / vw * 100 / 2 := rfl

/-- Unfolding lemma: the back wall's right edge. -/
theorem computeGeometry_BW_x2 (vw vh : ℚ) :
    (computeGeometry vw vh).BW.x2 =
      50 + ((computeGeometry vw vh).cols : ℚ) * (computeGeometry vw vh).tilePx / vw * 100 / 2 := rfl

/-- Unfolding lemma: the back wall's top edge. -/
theorem computeGeometry_BW_y1 (vw vh : ℚ) :
    (computeGeometry vw vh).BW.y1 =
      50 - ((computeGeometry vw vh).rows : ℚ) * (computeGeometry vw vh).tilePx / vh * 100 / 2 := rfl

/-- Unfolding lemma: the back wall's bottom edge. -/
theorem computeGeometry_BW_y2 (vw vh : ℚ) :
    (computeGeometry vw vh).BW.y2 =
      50 + ((computeGeometry vw vh).rows : ℚ) * (computeGeometry vw vh).tilePx / vh * 100 / 2 := rfl

/-- C2: for every positive viewport, `computeGeometry` returns `cols` and
`rows` that are even and at least 2, computed as
`nearestEven(round(seedW / targetTilePx))` and
`nearestEven(round(seedH / tileSize))`, and the back-wall pixel width and
height (recovered from the normalized rectangle) are `cols * tileSize` and
`rows * tileSize`, exact integer multiples of the tile size. -/
theorem computeGeometry_grid (vw vh : ℚ) (hvw : 0 < vw) (hvh : 0 < vh) :
    (computeGeometry vw vh).cols % 2 = 0 ∧ 2 ≤ (computeGeometry vw vh).cols ∧
    (computeGeometry vw vh).rows % 2 = 0 ∧ 2 ≤ (computeGeometry vw vh).rows ∧
    (computeGeometry vw vh).cols = snapToEven ((0.44 : ℚ) * vw / TARGET_TILE_PX) ∧
    (computeGeometry vw vh).rows =
      snapToEven ((0.56 : ℚ) * vh / (computeGeometry vw vh).tilePx) ∧
    ((computeGeometry vw vh).BW.x2 - (computeGeometry vw vh).BW.x1) / 100 * vw =
      ((computeGeometry vw vh).cols : ℚ) * (computeGeometry vw vh).tilePx ∧
    ((computeGeometry vw vh).BW.y2 - (computeGeometry vw vh).BW.y1) / 100 * vh =
      ((computeGeometry vw vh).rows : ℚ) * (computeGeometry vw vh).tilePx := by
  have hvw' : vw ≠ 0 := ne_of_gt hvw
  have hvh' : vh ≠ 0 := ne_of_gt hvh
  refine ⟨?_, ?_, ?_, ?_, rfl, rfl, ?_, ?_⟩
  · rw [computeGeometry_cols]; exact snapToEven_emod _
  · rw [computeGeometry_cols]; exact two_le_snapToEven _
  · rw [computeGeometry_rows]; exact snapToEven_emod _
  · rw [computeGeometry_rows]; exact two_le_snapToEven _
  · rw [computeGeometry_BW_x1, computeGeometry_BW_x2]; field_simp; ring
  · rw [computeGeometry_BW_y1, computeGeometry_BW_y2]; field_simp; ring

/-- C2 witness: the grid properties instantiated at the 1200×800 viewport. -/
theorem computeGeometry_grid_witness :
    (computeGeometry 1200 800).cols % 2 = 0 ∧ 2 ≤ (computeGeometry 1200 800).cols ∧
    (computeGeometry 1200 800).rows % 2 = 0 ∧ 2 ≤ (computeGeometry 1200 800).rows ∧
    (computeGeometry 1200 800).cols = snapToEven ((0.44 : ℚ) * 1200 / TARGET_TILE_PX) ∧
    (computeGeometry 1200 800).rows =
      snapToEven ((0.56 : ℚ) * 800 / (computeGeometry 1200 800).tilePx) ∧
    ((computeGeometry 1200 800).BW.x2 - (computeGeometry 1200 800).BW.x1) / 100 * 1200 =
      ((computeGeometry 1200 800).cols : ℚ) * (computeGeometry 1200 800).tilePx ∧
    ((computeGeometry 1200 800).BW.y2 - (computeGeometry 1200 800).BW.y1) / 100 * 800 =
      ((computeGeometry 1200 800).rows : ℚ) * (computeGeometry 1200 800).tilePx :=
  computeGeometry_grid 1200 800 (by norm_num) (by norm_num)

/-- C3: for every positive viewport, the back-wall rectangle returned by
`computeGeometry` is centered at normalized (50,50). -/
theorem backWall_centered (vw vh : ℚ) (hvw : 0 < vw) (hvh : 0 < vh) :
    ((computeGeometry vw vh).BW.x1 + (computeGeometry vw vh).BW.x2) / 2 = 50 ∧
    ((computeGeometry vw vh).BW.y1 + (computeGeometry vw vh).BW.y2) / 2 = 50 := by
  constructor
  · rw [computeGeometry_BW_x1, computeGeometry_BW_x2]; ring
  · rw [computeGeometry_BW_y1, computeGeometry_BW_y2]; ring

/-- C3 witness: centering instantiated at the 1200×800 viewport. -/
theorem backWall_centered_witness :
    ((computeGeometry 1200 800).BW.x1 + (computeGeometry 1200 800).BW.x2) / 2 = 50 ∧
    ((computeGeometry 1200 800).BW.y1 + (computeGeometry 1200 800).BW.y2) / 2 = 50 :=
  backWall_centered 1200 800 (by norm_num) (by norm_num)

/-- C4: for the viewport 1200×800, `computeGeometry` returns `cols = 10`,
`tilePx = 52.8`, `rows = 8`, back-wall pixel dimensions 528 × 422.4, and
normalized back-wall width 44 and height 52.8. -/
theorem computeGeometry_1200_800 :
    (computeGeometry 1200 800).cols = 10 ∧
    (computeGeometry 1200 800).tilePx = 52.8 ∧
    (computeGeometry 1200 800).rows = 8 ∧
    ((computeGeometry 1200 800).cols : ℚ) * (computeGeometry 1200 800).tilePx = 528 ∧
    ((computeGeometry 1200 800).rows : ℚ) * (computeGeometry 1200 800).tilePx = 422.4 ∧
    (computeGeometry 1200 800).BW.x2 - (computeGeometry 1200 800).BW.x1 = 44 ∧
    (computeGeometry 1200 800).BW.y2 - (computeGeometry 1200 800).BW.y1 = 52.8 := by
  norm_num [computeGeometry, snapToEven, TARGET_TILE_PX, round_eq]

/-- C10: for every positive viewport, the normalized back wall spans exactly
from 28 to 72 horizontally (width exactly 44), independent of the viewport:
the tile snapping only ever moves the vertical extent. -/
theorem backWall_width_fixed (vw vh : ℚ) (hvw : 0 < vw) (hvh : 0 < vh) :
    (computeGeometry vw vh).BW.x1 = 28 ∧ (computeGeometry vw vh).BW.x2 = 72 := by
  have hvw' : vw ≠ 0 := ne_of_gt hvw
  have h2 : 2 ≤ snapToEven ((0.44 : ℚ) * vw / TARGET_TILE_PX) := two_le_snapToEven _
  have hc : ((snapToEven ((0.44 : ℚ) * vw / TARGET_TILE_PX) : ℤ) : ℚ) ≠ 0 := by
    have h2q : (2 : ℚ) ≤ ((snapToEven ((0.44 : ℚ) * vw / TARGET_TILE_PX) : ℤ) : ℚ) := by
      exact_mod_cast h2
    linarith
  constructor
  · rw [computeGeometry_BW_x1, computeGeometry_cols, computeGeometry_tilePx]
    field_simp
    ring
  · rw [computeGeometry_BW_x2, computeGeometry_cols, computeGeometry_tilePx]
    field_simp
    ring

/-- C10 witness: the fixed horizontal extent at the 1200×800 viewport. -/
theorem backWall_width_fixed_witness :
    (computeGeometry 1200 800).BW.x1 = 28 ∧ (computeGeometry 1200 800).BW.x2 = 72 :=
  backWall_width_fixed 1200 800 (by norm_num) (by norm_num)

/-- C1: for every point of the normalized square and every back wall produced
by `computeGeometry` from a positive viewport, `wallAtPoint` returns one of
the five wall ids (it is a total function into that enumeration), and any
point inside the back-wall rectangle, bounds included, classifies as back. -/
theorem wallAtPoint_total_and_back (vw vh px py : ℚ) (hvw : 0 < vw) (hvh : 0 < vh)
    (hx0 : 0 ≤ px) (hx1 : px ≤ 100) (hy0 : 0 ≤ py) (hy1 : py ≤ 100) :
    (wallAtPoint px py (computeGeometry vw vh).BW = WallId.back ∨
     wallAtPoint px py (computeGeometry vw vh).BW = WallId.left ∨
     wallAtPoint px py (computeGeometry vw vh).BW = WallId.right ∨
     wallAtPoint px py (computeGeometry vw vh).BW = WallId.ceiling ∨
     wallAtPoint px py (computeGeometry vw vh).BW = WallId.floor) ∧
    (((computeGeometry vw vh).BW.x1 ≤ px ∧ px ≤ (computeGeometry vw vh).BW.x2 ∧
      (computeGeometry vw vh).BW.y1 ≤ py ∧ py ≤ (computeGeometry vw vh).BW.y2) →
      wallAtPoint px py (computeGeometry vw vh).BW = WallId.back) := by
  constructor
  · cases h : wallAtPoint px py (computeGeometry vw vh).BW <;> simp
  · intro h
    unfold wallAtPoint
    rw [if_pos h]

/-- C1 witness: the screen center of the 1200×800 viewport lies inside the
back wall and classifies as back. -/
theorem wallAtPoint_total_and_back_witness :
    (wallAtPoint 50 50 (computeGeometry 1200 800).BW = WallId.back ∨
     wallAtPoint 50 50 (computeGeometry 1200 800).BW = WallId.left ∨
     wallAtPoint 50 50 (computeGeometry 1200 800).BW = WallId.right ∨
     wallAtPoint 50 50 (computeGeometry 1200 800).BW = WallId.ceiling ∨
     wallAtPoint 50 50 (computeGeometry 1200 800).BW = WallId.floor) ∧
    (((computeGeometry 1200 800).BW.x1 ≤ 50 ∧ (50 : ℚ) ≤ (computeGeometry 1200 800).BW.x2 ∧
      (computeGeometry 1200 800).BW.y1 ≤ 50 ∧ (50 : ℚ) ≤ (computeGeometry 1200 800).BW.y2) →
      wallAtPoint 50 50 (computeGeometry 1200 800).BW = WallId.back) :=
  wallAtPoint_total_and_back 1200 800 50 50 (by norm_num) (by norm_num)
    (by norm_num) (by norm_num) (by norm_num) (by norm_num)

/-- C5: for each of the eight resize affordances, a pointer-move computes the
new size per axis from the letters of the affordance identifier — adding the
delta for east/south, subtracting it for west/north, clamped at `MIN_W` and
`MIN_H` — so as long as the previous size respected the floors, the resulting
width is never below 200 and the resulting height never below 130, however
negative the deltas are. -/
theorem resizeMove_clamped (eg : String) (start : ResizeStart) (cx cy : ℚ)
    (prev : Size)
    (hmem : eg ∈ ["n", "s", "e", "w", "ne", "nw", "se", "sw"])
    (hw : MIN_W ≤ prev.w) (hh : MIN_H ≤ prev.h) :
    (eg.data.contains 'e' = true →
      (resizeMove eg start cx cy prev).w = max MIN_W (start.w + (cx - start.x))) ∧
    (eg.data.contains 'w' = true →
      (resizeMove eg start cx cy prev).w = max MIN_W (start.w - (cx - start.x))) ∧
    (eg.data.contains 's' = true →
      (resizeMove eg start cx cy prev).h = max MIN_H (start.h + (cy - start.y))) ∧
    (eg.data.contains 'n' = true →
      (resizeMove eg start cx cy prev).h = max MIN_H (start.h - (cy - start.y))) ∧
    MIN_W ≤ (resizeMove eg start cx cy prev).w ∧
    MIN_H ≤ (resizeMove eg start cx cy prev).h := by
  fin_cases hmem <;>
    simp_all [resizeMove, le_max_left, le_max_right]

/-- C5 witness: grabbing the southeast corner and moving the pointer 1000px
up and left clamps the window at the 200×130 floor. -/
theorem resizeMove_clamped_witness :
    (("se" : String).data.contains 'e' = true →
      (resizeMove "se" (ResizeStart.mk 0 0 300 200) (-1000) (-1000) (Size.mk 260 180)).w =
        max MIN_W (300 + ((-1000 : ℚ) - 0))) ∧
    (("se" : String).data.contains 'w' = true →
      (resizeMove "se" (ResizeStart.mk 0 0 300 200) (-1000) (-1000) (Size.mk 260 180)).w =
        max MIN_W (300 - ((-1000 : ℚ) - 0))) ∧
    (("se" : String).data.contains 's' = true →
      (resizeMove "se" (ResizeStart.mk 0 0 300 200) (-1000) (-1000) (Size.mk 260 180)).h =
        max MIN_H (200 + ((-1000 : ℚ) - 0))) ∧
    (("se" : String).data.contains 'n' = true →
      (resizeMove "se" (ResizeStart.mk 0 0 300 200) (-1000) (-1000) (Size.mk 260 180)).h =
        max MIN_H (200 - ((-1000 : ℚ) - 0))) ∧
    MIN_W ≤ (resizeMove "se" (ResizeStart.mk 0 0 300 200) (-1000) (-1000) (Size.mk 260 180)).w ∧
    MIN_H ≤ (resizeMove "se" (ResizeStart.mk 0 0 300 200) (-1000) (-1000) (Size.mk 260 180)).h :=
  resizeMove_clamped "se" (ResizeStart.mk 0 0 300 200) (-1000) (-1000) (Size.mk 260 180)
    (by simp) (by norm_num [MIN_W]) (by norm_num [MIN_H])

/-- C7: a drag pointer-move sets the position to the position captured at
pointer-down plus the pointer displacement — a pure translation — and the
position after any sequence of moves equals the one computed from the last
move alone. -/
theorem dragMove_translation (s : DragStart) (cx cy : ℚ) (events : List (ℚ × ℚ)) :
    dragMovePos s cx cy = (s.mx + (cx - s.px), s.my + (cy - s.py)) ∧
    dragPositions s (events ++ [(cx, cy)]) = dragMovePos s cx cy := by
  constructor
  · simp only [dragMovePos, Prod.mk.injEq]
    constructor <;> ring
  · simp [dragPositions, List.foldl_append]

/-- C6: releasing a drag at a point classified as wall B rewrites exactly the
dragged window's `wall` field to B; its id, title, position and size — and
every other window — are untouched by the reassignment. -/
theorem dragRelease_sets_wall_only (wid : String) (cx cy vw vh : ℚ) (B : WallId)
    (ws : List WindowRec) (hB : dragReleaseWall cx cy vw vh = B) :
    List.Forall₂ (fun w w2 =>
      w2.id = w.id ∧ w2.title = w.title ∧ w2.pos = w.pos ∧ w2.size = w.size ∧
      w2.wall = if w.id = wid then B else w.wall) ws (dragRelease wid cx cy vw vh ws) := by
  subst hB
  unfold dragRelease moveWindow
  rw [List.forall₂_map_right_iff, List.forall₂_same]
  intro w hw
  by_cases h : w.id = wid <;> simp [h]

/-- C6 witness: a window docked to the ceiling, released at client point
(600,400) of a 1200×800 viewport (the screen center, classified as back),
ends up on the back wall with its position and size unchanged. -/
theorem dragRelease_sets_wall_only_witness :
    List.Forall₂ (fun (w w2 : WindowRec) =>
      w2.id = w.id ∧ w2.title = w.title ∧ w2.pos = w.pos ∧ w2.size = w.size ∧
      w2.wall = if w.id = "nexus" then WallId.back else w.wall)
      [{ id := "nexus", title := "Nexus", wall := WallId.ceiling,
         pos := (10, 20), size := { w := 260, h := 180 } }]
      (dragRelease "nexus" 600 400 1200 800
        [{ id := "nexus", title := "Nexus", wall := WallId.ceiling,
           pos := (10, 20), size := { w := 260, h := 180 } }]) :=
  dragRelease_sets_wall_only "nexus" 600 400 1200 800 WallId.back _
    (by norm_num [dragReleaseWall, wallAtPoint, computeGeometry, snapToEven,
      TARGET_TILE_PX, round_eq])

/-- C8 counterexample: with a drag already active (`dragging = true`), a
primary-button pointer-down on the header on a non-mobile viewport is not a
no-op — the handler calls `onDragStart` and registers listeners again, since
the source guard checks only the button and the mobile flag. -/
theorem headerPointerDown_no_reentry_guard :
    (handleHeaderPointerDown false 0 true true).dragStartCalled = true ∧
    (handleHeaderPointerDown false 0 true true).listenersRegistered = true := by
  constructor <;> rfl

/-- C8 as amended: a header pointer-down is a no-op (state unchanged, no
callbacks, no listener registration) exactly when the viewport is mobile or
the button is not the primary one; there is no guard on an already-active
drag. -/
theorem headerPointerDown_guard (isMobile : Bool) (button : ℤ) (dragging active : Bool)
    (h : isMobile = true ∨ button ≠ 0) :
    handleHeaderPointerDown isMobile button dragging active =
      { dragging := dragging, active := active
        dragStartCalled := false, listenersRegistered := false } := by
  unfold handleHeaderPointerDown
  rw [if_pos h]

/-- C8 witness: on a mobile viewport the handler does nothing. -/
theorem headerPointerDown_guard_witness :
    handleHeaderPointerDown true 0 false false =
      { dragging := false, active := false
        dragStartCalled := false, listenersRegistered := false } :=
  headerPointerDown_guard true 0 false false (Or.inl rfl)

/-- C9 counterexample: for the left wall the y offset from the anchor corner
is the stagger alone — the claimed 24px margin is not added on that axis.
At the 1200×800 geometry and stacking index 0 the code yields
`bwPxY1`, not `bwPxY1 + 24`. -/
theorem defaultWindowPos_left_no_y_margin :
    (defaultWindowPos WallId.left (computeGeometry 1200 800).BW 1200 800 0).2 ≠
      (computeGeometry 1200 800).BW.y1 / 100 * 800 + 24 := by
  norm_num [defaultWindowPos, computeGeometry, snapToEven, TARGET_TILE_PX, round_eq]

/-- C9 as amended: `defaultWindowPos` offsets each wall's anchor corner by a
28px × stackIndex stagger in both axes plus a 24px margin in the x axis for
every wall and in the y axis only for back, ceiling and floor (left and right
get no y margin); distinct stacking indices on the same wall always yield
distinct, cascaded positions. -/
theorem defaultWindowPos_spec (BW : Rect) (vw vh : ℚ) (k k2 : ℕ) (wall : WallId)
    (hk : k ≠ k2) :
    defaultWindowPos WallId.back BW vw vh k =
      (BW.x1 / 100 * vw + 24 + 28 * k, BW.y1 / 100 * vh + 24 + 28 * k) ∧
    defaultWindowPos WallId.ceiling BW vw vh k =
      (BW.x1 / 100 * vw + 24 + 28 * k, 24 + 28 * (k : ℚ)) ∧
    defaultWindowPos WallId.floor BW vw vh k =
      (BW.x1 / 100 * vw + 24 + 28 * k, BW.y2 / 100 * vh + 24 + 28 * k) ∧
    defaultWindowPos WallId.left BW vw vh k = (24 + 28 * (k : ℚ), BW.y1 / 100 * vh + 28 * k) ∧
    defaultWindowPos WallId.right BW vw vh k =
      (BW.x2 / 100 * vw + 24 + 28 * k, BW.y1 / 100 * vh + 28 * k) ∧
    defaultWindowPos wall BW vw vh k ≠ defaultWindowPos wall BW vw vh k2 := by
  have hkq : (k : ℚ) ≠ (k2 : ℚ) := by exact_mod_cast hk
  refine ⟨?_, ?_, ?_, ?_, ?_, ?_⟩
  · simp only [defaultWindowPos, Prod.mk.injEq]; constructor <;> ring
  · simp only [defaultWindowPos, Prod.mk.injEq]; constructor <;> ring
  · simp only [defaultWindowPos, Prod.mk.injEq]; constructor <;> ring
  · simp only [defaultWindowPos, Prod.mk.injEq]; constructor <;> ring
  · simp only [defaultWindowPos, Prod.mk.injEq]; constructor <;> ring
  · cases wall <;>
      · intro heq
        apply hkq
        have h1 := congrArg Prod.fst heq
        simp only [defaultWindowPos] at h1
        linarith

/-- C9 witness: the amended placement formulas and the cascade at the
1200×800 back wall for stacking indices 0 and 1. -/
theorem defaultWindowPos_spec_witness :
    defaultWindowPos WallId.back ⟨28, 118 / 5, 72, 382 / 5⟩ 1200 800 0 =
      ((28 : ℚ) / 100 * 1200 + 24 + 28 * 0, (118 : ℚ) / 5 / 100 * 800 + 24 + 28 * 0) ∧
    defaultWindowPos WallId.ceiling ⟨28, 118 / 5, 72, 382 / 5⟩ 1200 800 0 =
      ((28 : ℚ) / 100 * 1200 + 24 + 28 * 0, 24 + 28 * ((0 : ℕ) : ℚ)) ∧
    defaultWindowPos WallId.floor ⟨28, 118 / 5, 72, 382 / 5⟩ 1200 800 0 =
      ((28 : ℚ) / 100 * 1200 + 24 + 28 * 0, (382 : ℚ) / 5 / 100 * 800 + 24 + 28 * 0) ∧
    defaultWindowPos WallId.left ⟨28, 118 / 5, 72, 382 / 5⟩ 1200 800 0 =
      (24 + 28 * ((0 : ℕ) : ℚ), (118 : ℚ) / 5 / 100 * 800 + 28 * 0) ∧
    defaultWindowPos WallId.right ⟨28, 118 / 5, 72, 382 / 5⟩ 1200 800 0 =
      ((72 : ℚ) / 100 * 1200 + 24 + 28 * 0, (118 : ℚ) / 5 / 100 * 800 + 28 * 0) ∧
    defaultWindowPos WallId.back ⟨28, 118 / 5, 72, 382 / 5⟩ 1200 800 0 ≠
      defaultWindowPos WallId.back ⟨28, 118 / 5, 72, 382 / 5⟩ 1200 800 1 :=
  defaultWindowPos_spec ⟨28, 118 / 5, 72, 382 / 5⟩ 1200 800 0 1 WallId.back (by decide)

end Nexus
